import Mathlib

/-!
Shallow embedding of the OCR PDF extractor pipeline (src/main.py).

The program is a linear orchestration around external capabilities
(pdfplumber page text extraction, pdf2image rasterization, pytesseract
OCR, FPDF re-rendering).  Those externals are modelled as oracle inputs:
each fallible external call is an `Except Unit _` value (or a `Bool`
success flag) supplied in an environment record, and the repository's
control flow around them is translated below.
-/

/-- Python whitespace characters recognised by `str.strip()`. -/
def isPyWs (c : Char) : Bool :=
  c = ' ' || c = '\t' || c = '\n' || c = '\x0b' || c = '\x0c' || c = '\r'

/-- Python `s.strip()`: remove leading and trailing whitespace. -/
def pyStrip (s : String) : String :=
  ⟨((s.data.dropWhile isPyWs).reverse.dropWhile isPyWs).reverse⟩

/-- The page-boundary marker the source prepends to each page's text:
the f-string `"\n--- Page {i+1} ---\n"` of src/main.py lines 130 and 173. -/
def pageMarker (n : Nat) : String :=
  "\n--- Page " ++ toString n ++ " ---\n"

/-- The native-extraction loop of src/main.py lines 127-130: iterate the
pages with their 0-based index `i`; when a page's stripped text is
non-empty, append the marker for page `i+1` followed by the raw page text
to the accumulator. -/
def nativeLoop (acc : String) (i : Nat) : List String → String
  | [] => acc
  | p :: rest =>
      nativeLoop (if pyStrip p ≠ "" then acc ++ pageMarker (i + 1) ++ p else acc) (i + 1) rest

/-- Accumulated native-extraction text for a list of per-page extraction
results (`page.extract_text() or ""` per page), starting from the empty
accumulator. -/
def nativeText (pages : List String) : String :=
  nativeLoop "" 0 pages

/-- Semantic view of the native accumulation: the list of
(page number, page text) chunks the loop appends, with `i` the 0-based
index of the first remaining page. -/
def nativeChunksFrom (i : Nat) : List String → List (Nat × String)
  | [] => []
  | p :: rest =>
      if pyStrip p ≠ "" then (i + 1, p) :: nativeChunksFrom (i + 1) rest
      else nativeChunksFrom (i + 1) rest

/-- Rendering of a chunk list: each chunk contributes its page marker
followed by its text. -/
def chunksRender : List (Nat × String) → String
  | [] => ""
  | c :: cs => pageMarker c.1 ++ c.2 ++ chunksRender cs

/-- The per-page OCR loop of src/main.py lines 169-177: `i` is the 0-based
index of the next image, `k` the number of images remaining.  A successful
OCR call appends the marker for page `i+1` and the recognised text (even
when empty); a failing call instead records the 1-based page number in the
error-report list and the loop continues. -/
def ocrLoop (ocr : Nat → Except Unit String) : Nat → Nat → String → List Nat → String × List Nat
  | _, 0, acc, errs => (acc, errs)
  | i, k + 1, acc, errs =>
      match ocr i with
      | .ok t => ocrLoop ocr (i + 1) k (acc ++ pageMarker (i + 1) ++ t) errs
      | .error _ => ocrLoop ocr (i + 1) k acc (errs ++ [i + 1])

/-- Run the OCR loop over `n` rasterized page images starting from the
empty accumulator (the source resets `extracted_text` to `""` at line 159
before OCR). -/
def ocrRun (ocr : Nat → Except Unit String) (n : Nat) : String × List Nat :=
  ocrLoop ocr 0 n "" []

/-- Semantic view of the OCR accumulation: chunks appended for the `k`
images starting at 0-based index `i`. -/
def ocrChunksFrom (ocr : Nat → Except Unit String) : Nat → Nat → List (Nat × String)
  | _, 0 => []
  | i, k + 1 =>
      match ocr i with
      | .ok t => (i + 1, t) :: ocrChunksFrom ocr (i + 1) k
      | .error _ => ocrChunksFrom ocr (i + 1) k

/-- The 1-based page numbers reported as per-page OCR errors for the `k`
images starting at 0-based index `i`. -/
def ocrErrsFrom (ocr : Nat → Except Unit String) : Nat → Nat → List Nat
  | _, 0 => []
  | i, k + 1 =>
      match ocr i with
      | .ok _ => ocrErrsFrom ocr (i + 1) k
      | .error _ => (i + 1) :: ocrErrsFrom ocr (i + 1) k

/-- Outcomes of the three fallible filesystem/toolchain steps inside the
`is_poppler_installed` probe of src/main.py lines 58-69: writing the
synthetic test PDF, rasterizing it via `convert_from_bytes`, and
`os.remove` of the test file. -/
structure ProbeEnv where
  writeOk : Bool
  convertOk : Bool
  removeOk : Bool
deriving DecidableEq

/-- Observable filesystem/toolchain events of the probe. -/
inductive ProbeEvent where
  | wroteFile
  | converted
  | removedFile
deriving DecidableEq

/-- The body of `is_poppler_installed` (the statements inside its `try`):
write the synthetic one-page PDF, rasterize it, remove the temp file,
return `True`.  Each step raises when its oracle flag is false; the pair
carries the exception status and the trace of events that happened before
the raise. -/
def popplerProbeBody (env : ProbeEnv) : Except Unit Bool × List ProbeEvent :=
  if ¬ env.writeOk then (.error (), [])
  else if ¬ env.convertOk then (.error (), [.wroteFile])
  else if ¬ env.removeOk then (.error (), [.wroteFile, .converted])
  else (.ok true, [.wroteFile, .converted, .removedFile])

/-- `is_poppler_installed` of src/main.py lines 58-69: the body wrapped in
`try ... except Exception: return False`.  Always returns a boolean. -/
def is_poppler_installed (env : ProbeEnv) : Bool × List ProbeEvent :=
  match popplerProbeBody env with
  | (.ok b, evs) => (b, evs)
  | (.error _, evs) => (false, evs)

/-- The fixed placeholder substituted for a body line whose rendering
fails (src/main.py line 95). -/
def placeholderLine : String := "[Content with special characters removed]"

/-- Helper for `pySplitNl`: consume the character list, accumulating the
current line in reverse. -/
def splitNlAux : List Char → List Char → List String
  | [], cur => [⟨cur.reverse⟩]
  | c :: cs, cur =>
      if c = '\n' then ⟨cur.reverse⟩ :: splitNlAux cs [] else splitNlAux cs (c :: cur)

/-- Python `text.split('\n')` (src/main.py line 86): split on every
newline, keeping empty segments; the empty string yields `[""]`. -/
def pySplitNl (s : String) : List String :=
  splitNlAux s.data []

/-- The body-line loop of `create_pdf_from_text` (src/main.py lines
86-95): split the text on newlines; skip empty lines; for a non-empty
line call `multi_cell`, modelled as failing exactly when `canRender` is
false on the line; on failure retry with the placeholder line, whose own
failure is unguarded and propagates. -/
def addLines (canRender : String → Bool) : List String → Except Unit (List String)
  | [] => .ok []
  | l :: ls =>
      if l.length > 0 then
        if canRender l then (addLines canRender ls).map (l :: ·)
        else if canRender placeholderLine then
          (addLines canRender ls).map (placeholderLine :: ·)
        else .error ()
      else addLines canRender ls

/-- Models the external FPDF serializer `pdf.output(dest="S")` applied to
the sequence of emitted cells: a PDF byte stream always begins with the
format header, followed by the rendered cells. -/
def fpdfOutput (cells : List String) : String :=
  "%PDF-1.3\n" ++ String.intercalate "\n" cells

/-- `create_pdf_from_text` of src/main.py lines 72-97.  The title cell
(line 79) is emitted outside any exception handler, so an unrenderable
title propagates as an exception; the body lines go through `addLines`;
on success the serialized buffer is returned. -/
def create_pdf_from_text (canRender : String → Bool) (text : String)
    (title : String) : Except Unit String :=
  if canRender title then
    match addLines canRender (pySplitNl text) with
    | .ok body => .ok (fpdfOutput (title :: body))
    | .error e => .error e
  else .error ()

/-- Latin-1 renderability: FPDF's core fonts encode text in latin-1, so a
cell fails for content reasons exactly when the string has a code point
outside the first 256. -/
def latin1Renderable (s : String) : Bool :=
  s.data.all (fun c => c.toNat < 256)

/-- Oracle environment for one pipeline run: the force-OCR checkbox, the
result of the native-extraction phase (the per-page `extract_text` results,
or an exception anywhere in that phase), the probe oracle flags, the
result of `convert_from_bytes` on the upload (the number of page images,
or an exception), the per-image OCR oracle, and whether `os.unlink`
succeeds. -/
structure Env where
  forceOCR : Bool
  native : Except Unit (List String)
  probe : ProbeEnv
  convert : Except Unit Nat
  ocr : Nat → Except Unit String
  unlinkOk : Bool

/-- The text held by `extracted_text` after the native-extraction phase
when it runs: the accumulated text on success, the empty string when the
phase raised (the reset at src/main.py line 136). -/
def nativeResultText (native : Except Unit (List String)) : String :=
  match native with
  | .ok pages => nativeText pages
  | .error _ => ""

/-- `extracted_text` after src/main.py lines 122-136: the native phase is
skipped entirely when force-OCR is set, leaving the initial empty
string. -/
def nativePhase (force : Bool) (native : Except Unit (List String)) : String :=
  if force then "" else nativeResultText native

/-- The value `extracted_text` takes when the OCR branch (src/main.py
lines 158-181) runs: the accumulator is reset to empty, then
`convert_from_bytes` either raises (leaving it empty) or yields `n`
images fed to the per-page OCR loop. -/
def ocrBranchText (env : Env) : String :=
  match env.convert with
  | .error _ => ""
  | .ok n => (ocrRun env.ocr n).1

/-- Observable outcome of one pipeline run. -/
structure PipelineResult where
  finalText : String
  preflightAttempted : Bool
  preflightResult : Option Bool
  hardStopShown : Bool
  ocrBranchEntered : Bool
  ocrCalls : Nat
  ocrErrors : List Nat
  unlinkAttempted : Bool
  unlinkSucceeded : Bool
  presentedText : Option String
deriving DecidableEq

/-- Cleanup and result presentation (src/main.py lines 183-208): the
`os.unlink` is attempted unconditionally with its failure swallowed, then
the text area is shown when the stripped final text is non-empty,
otherwise the terminal failure message. -/
def finishRun (t : String) (preAtt : Bool) (preRes : Option Bool) (hard : Bool)
    (entered : Bool) (calls : Nat) (errs : List Nat) (unlinkOk : Bool) : PipelineResult :=
  ⟨t, preAtt, preRes, hard, entered, calls, errs, true, unlinkOk,
    if pyStrip t ≠ "" then some t else none⟩

/-- The whole per-upload pipeline of src/main.py lines 101-208, as a
function of the oracle environment: native phase, fallback trigger
`len(extracted_text.strip()) < 100 or fallback_all_pages` (line 139),
poppler preflight, hard stop or reset-and-OCR, cleanup, presentation. -/
def pipeline (env : Env) : PipelineResult :=
  let t1 := nativePhase env.forceOCR env.native
  if (pyStrip t1).length < 100 || env.forceOCR then
    if (is_poppler_installed env.probe).1 then
      match env.convert with
      | .error _ => finishRun "" true (some true) false true 0 [] env.unlinkOk
      | .ok n =>
          let r := ocrRun env.ocr n
          finishRun r.1 true (some true) false true n r.2 env.unlinkOk
    else finishRun t1 true (some false) true false 0 [] env.unlinkOk
  else finishRun t1 false none false false 0 [] env.unlinkOk

/-- Replace only the unlink-success oracle of an environment. -/
def setUnlink (env : Env) (b : Bool) : Env :=
  ⟨env.forceOCR, env.native, env.probe, env.convert, env.ocr, b⟩

/-- An upload whose native extraction yields one short page ("hello"),
with a probe environment where rasterization fails: the fallback is
required but the preflight fails. -/
def c1env : Env :=
  ⟨false, .ok ["hello"], ⟨true, false, true⟩, .ok 0, fun _ => .error (), true⟩

/-- A page of 85 letters: its accumulated marker plus text strips to
exactly 100 characters. -/
def aPage : String := ⟨List.replicate 85 'a'⟩

/-- An upload sitting exactly on the threshold: the stripped native
accumulator has length exactly 100, force-OCR off, toolchain present. -/
def c2env : Env :=
  ⟨false, .ok [aPage], ⟨true, true, true⟩, .ok 0, fun _ => .error (), true⟩

/-- A page of 200 letters: the stripped native accumulator is well above
the threshold. -/
def bigPage : String := ⟨List.replicate 200 'b'⟩

/-- An upload with an amply sufficient native text layer. -/
def c2okenv : Env :=
  ⟨false, .ok [bigPage], ⟨true, true, true⟩, .ok 1, fun _ => .ok "t", true⟩

/-- Force-OCR on a document with a perfectly extractable text layer:
the OCR branch must run and discard the native text. -/
def c4env : Env :=
  ⟨true, .ok [bigPage], ⟨true, true, true⟩, .ok 1, fun _ => .ok "ocr text", true⟩

/-- An OCR oracle that fails on the first page and succeeds afterwards. -/
def mixedOcr : Nat → Except Unit String :=
  fun i => if i = 0 then .error () else .ok "x"

example : nativeText ["hi", "", "there"] =
    "\n--- Page 1 ---\nhi\n--- Page 3 ---\nthere" := by decide

example : pyStrip "  a b \n" = "a b" := by decide

example : (is_poppler_installed ⟨true, false, true⟩) = (false, [.wroteFile]) := by decide

theorem str_append_assoc (a b c : String) : a ++ b ++ c = a ++ (b ++ c) := by
  apply String.ext
  simp [String.data_append, List.append_assoc]

theorem str_append_empty (a : String) : a ++ "" = a := by
  apply String.ext
  simp [String.data_append]

theorem str_empty_append (a : String) : "" ++ a = a := by
  apply String.ext
  simp [String.data_append]

theorem nativeLoop_eq (pages : List String) : ∀ acc i,
    nativeLoop acc i pages = acc ++ chunksRender (nativeChunksFrom i pages) := by
  induction pages with
  | nil => intro acc i; simp [nativeLoop, nativeChunksFrom, chunksRender, str_append_empty]
  | cons p rest ih =>
      intro acc i
      by_cases h : pyStrip p ≠ ""
      · simp [nativeLoop, nativeChunksFrom, h, ih, chunksRender, str_append_assoc]
      · simp [nativeLoop, nativeChunksFrom, h, ih]

theorem nativeText_eq (pages : List String) :
    nativeText pages = chunksRender (nativeChunksFrom 0 pages) := by
  simpa [nativeText, str_empty_append] using nativeLoop_eq pages "" 0

theorem mem_nativeChunksFrom {c : Nat × String} :
    ∀ (pages : List String) (i : Nat), c ∈ nativeChunksFrom i pages →
      i < c.1 ∧ c.1 ≤ i + pages.length ∧ pages[c.1 - i - 1]? = some c.2 ∧ pyStrip c.2 ≠ "" := by
  intro pages
  induction pages with
  | nil => intro i h; simp [nativeChunksFrom] at h
  | cons p rest ih =>
      intro i h
      by_cases hp : pyStrip p ≠ ""
      · simp only [nativeChunksFrom, if_pos hp, List.mem_cons] at h
        rcases h with h | h
        · subst h
          refine ⟨Nat.lt_succ_self i, by simp, ?_, hp⟩
          simp
        · obtain ⟨h1, h2, h3, h4⟩ := ih (i + 1) h
          refine ⟨by omega, by simp; omega, ?_, h4⟩
          have hk : c.1 - i - 1 = (c.1 - (i + 1) - 1) + 1 := by omega
          rw [hk, List.getElem?_cons_succ]
          exact h3
      · simp only [nativeChunksFrom, if_neg hp] at h
        obtain ⟨h1, h2, h3, h4⟩ := ih (i + 1) h
        refine ⟨by omega, by simp; omega, ?_, h4⟩
        have hk : c.1 - i - 1 = (c.1 - (i + 1) - 1) + 1 := by omega
        rw [hk, List.getElem?_cons_succ]
        exact h3

theorem pairwise_nativeChunksFrom : ∀ (pages : List String) (i : Nat),
    List.Pairwise (fun a b : Nat × String => a.1 < b.1) (nativeChunksFrom i pages) := by
  intro pages
  induction pages with
  | nil => intro i; simp [nativeChunksFrom]
  | cons p rest ih =>
      intro i
      by_cases hp : pyStrip p ≠ ""
      · simp only [nativeChunksFrom, if_pos hp]
        refine List.pairwise_cons.mpr ⟨?_, ih (i + 1)⟩
        intro b hb
        have := (mem_nativeChunksFrom rest (i + 1) hb).1
        simpa using this
      · simpa only [nativeChunksFrom, if_neg hp] using ih (i + 1)

theorem ocrLoop_eq (ocr : Nat → Except Unit String) :
    ∀ (k i : Nat) (acc : String) (errs : List Nat),
      ocrLoop ocr i k acc errs =
        (acc ++ chunksRender (ocrChunksFrom ocr i k), errs ++ ocrErrsFrom ocr i k) := by
  intro k
  induction k with
  | zero =>
      intro i acc errs
      simp [ocrLoop, ocrChunksFrom, ocrErrsFrom, chunksRender, str_append_empty]
  | succ k ih =>
      intro i acc errs
      cases hoi : ocr i with
      | ok t =>
          simp [ocrLoop, ocrChunksFrom, ocrErrsFrom, hoi, ih, chunksRender, str_append_assoc]
      | error e =>
          simp [ocrLoop, ocrChunksFrom, ocrErrsFrom, hoi, ih, chunksRender]

theorem ocrRun_eq (ocr : Nat → Except Unit String) (n : Nat) :
    ocrRun ocr n = (chunksRender (ocrChunksFrom ocr 0 n), ocrErrsFrom ocr 0 n) := by
  simp [ocrRun, ocrLoop_eq, str_empty_append]

theorem mem_ocrChunksFrom {ocr : Nat → Except Unit String} {c : Nat × String} :
    ∀ (k i : Nat), c ∈ ocrChunksFrom ocr i k →
      i < c.1 ∧ c.1 ≤ i + k ∧ ocr (c.1 - 1) = .ok c.2 := by
  intro k
  induction k with
  | zero => intro i h; simp [ocrChunksFrom] at h
  | succ k ih =>
      intro i h
      cases hoi : ocr i with
      | ok t =>
          simp only [ocrChunksFrom, hoi, List.mem_cons] at h
          rcases h with h | h
          · subst h
            exact ⟨Nat.lt_succ_self i, by omega, by simpa using hoi⟩
          · obtain ⟨h1, h2, h3⟩ := ih (i + 1) h
            exact ⟨by omega, by omega, h3⟩
      | error e =>
          simp only [ocrChunksFrom, hoi] at h
          obtain ⟨h1, h2, h3⟩ := ih (i + 1) h
          exact ⟨by omega, by omega, h3⟩

theorem pairwise_ocrChunksFrom (ocr : Nat → Except Unit String) :
    ∀ (k i : Nat), List.Pairwise (fun a b : Nat × String => a.1 < b.1) (ocrChunksFrom ocr i k) := by
  intro k
  induction k with
  | zero => intro i; simp [ocrChunksFrom]
  | succ k ih =>
      intro i
      cases hoi : ocr i with
      | ok t =>
          simp only [ocrChunksFrom, hoi]
          refine List.pairwise_cons.mpr ⟨?_, ih (i + 1)⟩
          intro b hb
          have := (mem_ocrChunksFrom k (i + 1) hb).1
          simpa using this
      | error e => simpa only [ocrChunksFrom, hoi] using ih (i + 1)

theorem ok_mem_ocrChunksFrom {ocr : Nat → Except Unit String} {t : String} :
    ∀ (k i j : Nat), i ≤ j → j < i + k → ocr j = .ok t →
      (j + 1, t) ∈ ocrChunksFrom ocr i k := by
  intro k
  induction k with
  | zero => intro i j h1 h2 _; omega
  | succ k ih =>
      intro i j h1 h2 hj
      rcases Nat.eq_or_lt_of_le h1 with h | h
      · subst h
        simp [ocrChunksFrom, hj]
      · cases hoi : ocr i with
        | ok t2 =>
            simp only [ocrChunksFrom, hoi, List.mem_cons]
            exact Or.inr (ih (i + 1) j h (by omega) hj)
        | error e =>
            simp only [ocrChunksFrom, hoi]
            exact ih (i + 1) j h (by omega) hj

theorem err_mem_ocrErrsFrom {ocr : Nat → Except Unit String} :
    ∀ (k i j : Nat), i ≤ j → j < i + k → ocr j = .error () →
      (j + 1) ∈ ocrErrsFrom ocr i k := by
  intro k
  induction k with
  | zero => intro i j h1 h2 _; omega
  | succ k ih =>
      intro i j h1 h2 hj
      rcases Nat.eq_or_lt_of_le h1 with h | h
      · subst h
        simp [ocrErrsFrom, hj]
      · cases hoi : ocr i with
        | ok t2 =>
            simp only [ocrErrsFrom, hoi]
            exact ih (i + 1) j h (by omega) hj
        | error e =>
            simp only [ocrErrsFrom, hoi, List.mem_cons]
            exact Or.inr (ih (i + 1) j h (by omega) hj)

/-- Claim C5: in the accumulated output of either extraction strategy,
every page-boundary marker has the form `--- Page N ---` with `N` the
1-indexed source page number, and markers appear in strictly ascending
order matching source page order.  The accumulated text is exactly the
rendering of the chunk list; chunk page numbers are strictly ascending;
each chunk's number is the 1-based index of its source page (for OCR, of
the image whose OCR call succeeded with that text). -/
theorem c5_page_markers_ordered :
    (∀ pages : List String,
      nativeText pages = chunksRender (nativeChunksFrom 0 pages) ∧
      List.Pairwise (· < ·) ((nativeChunksFrom 0 pages).map Prod.fst) ∧
      ∀ c ∈ nativeChunksFrom 0 pages, 1 ≤ c.1 ∧ pages[c.1 - 1]? = some c.2) ∧
    (∀ (ocr : Nat → Except Unit String) (n : Nat),
      (ocrRun ocr n).1 = chunksRender (ocrChunksFrom ocr 0 n) ∧
      List.Pairwise (· < ·) ((ocrChunksFrom ocr 0 n).map Prod.fst) ∧
      ∀ c ∈ ocrChunksFrom ocr 0 n, 1 ≤ c.1 ∧ c.1 ≤ n ∧ ocr (c.1 - 1) = .ok c.2) := by
  constructor
  · intro pages
    refine ⟨nativeText_eq pages, ?_, ?_⟩
    · rw [List.pairwise_map]
      exact pairwise_nativeChunksFrom pages 0
    · intro c hc
      obtain ⟨h1, _, h3, _⟩ := mem_nativeChunksFrom pages 0 hc
      exact ⟨h1, by simpa using h3⟩
  · intro ocr n
    refine ⟨by rw [ocrRun_eq], ?_, ?_⟩
    · rw [List.pairwise_map]
      exact pairwise_ocrChunksFrom ocr n 0
    · intro c hc
      obtain ⟨h1, h2, h3⟩ := mem_ocrChunksFrom n 0 hc
      exact ⟨h1, by omega, h3⟩

/-- Concrete instantiation of the C5 theorem at a one-page upload. -/
theorem c5_markers_witness :
    (1, "hi") ∈ nativeChunksFrom 0 ["hi"] ∧
    (1 ≤ (1, "hi").1 ∧ ["hi"][(1, "hi").1 - 1]? = some (1, "hi").2) :=
  ⟨by decide, (c5_page_markers_ordered.1 ["hi"]).2.2 (1, "hi") (by decide)⟩

/-- Claim C6: during the OCR fallback each page is OCR'd independently: a
failure on one page is reported with that page's 1-based number, the
remaining pages are still processed, and the accumulated text is exactly
the in-order rendering of the successful pages' chunks (text from other
pages is preserved unchanged). -/
theorem c6_per_page_ocr_isolation :
    ∀ (ocr : Nat → Except Unit String) (n : Nat),
      ocrRun ocr n = (chunksRender (ocrChunksFrom ocr 0 n), ocrErrsFrom ocr 0 n) ∧
      (∀ i, i < n → ocr i = .error () → (i + 1) ∈ (ocrRun ocr n).2) ∧
      (∀ i t, i < n → ocr i = .ok t → (i + 1, t) ∈ ocrChunksFrom ocr 0 n) := by
  intro ocr n
  refine ⟨ocrRun_eq ocr n, ?_, ?_⟩
  · intro i hi he
    rw [ocrRun_eq]
    exact err_mem_ocrErrsFrom n 0 i (Nat.zero_le i) (by omega) he
  · intro i t hi ht
    exact ok_mem_ocrChunksFrom n 0 i (Nat.zero_le i) (by omega) ht

/-- Concrete instantiation of the C6 theorem: page 1 fails, page 2
succeeds; the failure is reported as page 1 and page 2's chunk is kept. -/
theorem c6_isolation_witness :
    (1 ∈ (ocrRun mixedOcr 2).2) ∧ ((2, "x") ∈ ocrChunksFrom mixedOcr 0 2) :=
  ⟨(c6_per_page_ocr_isolation mixedOcr 2).2.1 0 (by decide) rfl,
   (c6_per_page_ocr_isolation mixedOcr 2).2.2 1 "x" (by decide) rfl⟩

/-- Claim C10: the two strategies treat empty page text asymmetrically: a
native page whose text strips to empty contributes no page marker, while
every OCR page whose call succeeds contributes its marker even when the
recognised text is empty or whitespace-only. -/
theorem c10_empty_page_asymmetry :
    (∀ (pages : List String) (i : Nat) (p : String),
      pages[i]? = some p → pyStrip p = "" →
      (i + 1) ∉ (nativeChunksFrom 0 pages).map Prod.fst) ∧
    (∀ (ocr : Nat → Except Unit String) (n i : Nat) (t : String),
      i < n → ocr i = .ok t →
      (i + 1) ∈ (ocrChunksFrom ocr 0 n).map Prod.fst) := by
  constructor
  · intro pages i p hp hs hmem
    obtain ⟨c, hc, hfst⟩ := List.mem_map.mp hmem
    obtain ⟨_, _, h3, h4⟩ := mem_nativeChunksFrom pages 0 hc
    have hidx : c.1 - 0 - 1 = i := by omega
    rw [hidx] at h3
    rw [hp] at h3
    exact h4 (by simpa [← Option.some_inj.mp h3] using hs)
  · intro ocr n i t hi ht
    exact List.mem_map_of_mem Prod.fst (ok_mem_ocrChunksFrom n 0 i (Nat.zero_le i) (by omega) ht)

/-- Concrete instantiation of the C10 theorem: a whitespace-only native
page yields no marker; an OCR page recognised as the empty string still
yields its marker. -/
theorem c10_asymmetry_witness :
    (1 ∉ (nativeChunksFrom 0 ["  "]).map Prod.fst) ∧
    (1 ∈ (ocrChunksFrom (fun _ => .ok "") 0 1).map Prod.fst) :=
  ⟨c10_empty_page_asymmetry.1 ["  "] 0 "  " (by decide) (by decide),
   c10_empty_page_asymmetry.2 (fun _ => .ok "") 1 0 "" (by decide) rfl⟩

/-- Claim C7: the rasterization-toolchain preflight is total: it returns
a boolean for every probe outcome, `true` only if rasterizing the
synthetic one-page PDF succeeds, `false` whenever any step of the probe
raises (the exception is swallowed, never propagated). -/
theorem c7_poppler_probe_total :
    ∀ env : ProbeEnv,
      ((is_poppler_installed env).1 = true → env.convertOk = true) ∧
      (env.convertOk = false → (is_poppler_installed env).1 = false) ∧
      ((env.writeOk && env.convertOk && env.removeOk) = false →
        (is_poppler_installed env).1 = false) := by
  intro env
  obtain ⟨w, c, r⟩ := env
  cases w <;> cases c <;> cases r <;> simp [is_poppler_installed, popplerProbeBody]

/-- Concrete instantiation of the C7 theorem: with every probe step
succeeding the probe returns true, hence rasterization succeeded. -/
theorem c7_probe_witness :
    (is_poppler_installed ⟨true, true, true⟩).1 = true ∧
    (⟨true, true, true⟩ : ProbeEnv).convertOk = true :=
  ⟨by decide, (c7_poppler_probe_total ⟨true, true, true⟩).1 (by decide)⟩

/-- Claim C9 fails on the code: when rasterization of the synthetic test
PDF raises, control jumps to the `except` clause before `os.remove` runs,
so on the failure outcome the temp file is written but never deleted. -/
theorem c9_counterexample_no_cleanup :
    (is_poppler_installed ⟨true, false, true⟩).1 = false ∧
    ProbeEvent.wroteFile ∈ (is_poppler_installed ⟨true, false, true⟩).2 ∧
    ProbeEvent.removedFile ∉ (is_poppler_installed ⟨true, false, true⟩).2 := by
  decide

/-- Claim C9 amended: the preflight deletes its temporary synthetic test
PDF before returning on the success outcome; on the failure outcome the
deletion can be skipped (the temp file may be left behind). -/
theorem c9_cleanup_on_success :
    ∀ env : ProbeEnv, (is_poppler_installed env).1 = true →
      ProbeEvent.removedFile ∈ (is_poppler_installed env).2 := by
  intro env
  obtain ⟨w, c, r⟩ := env
  cases w <;> cases c <;> cases r <;> simp [is_poppler_installed, popplerProbeBody]

/-- Concrete instantiation of the amended C9 theorem. -/
theorem c9_cleanup_witness :
    (is_poppler_installed ⟨true, true, true⟩).1 = true ∧
    ProbeEvent.removedFile ∈ (is_poppler_installed ⟨true, true, true⟩).2 :=
  ⟨by decide, c9_cleanup_on_success ⟨true, true, true⟩ (by decide)⟩

theorem addLines_eq (canRender : String → Bool) (hp : canRender placeholderLine = true) :
    ∀ ls : List String, addLines canRender ls =
      .ok ((ls.filter (fun l => 0 < l.length)).map
        (fun l => if canRender l then l else placeholderLine)) := by
  intro ls
  induction ls with
  | nil => simp [addLines]
  | cons l rest ih =>
      by_cases h0 : l.length > 0
      · by_cases hc : canRender l
        · simp [addLines, h0, hc, ih, List.filter_cons, Except.map]
        · simp [addLines, h0, hc, hp, ih, List.filter_cons, Except.map]
      · have h0' : l.length = 0 := by omega
        simp [addLines, h0', ih, List.filter_cons]

theorem fpdfOutput_length_pos (cells : List String) : 0 < (fpdfOutput cells).length := by
  have h : (fpdfOutput cells).data =
      "%PDF-1.3\n".data ++ (String.intercalate "\n" cells).data := by
    simp [fpdfOutput, String.data_append]
  have h2 : (fpdfOutput cells).length = (fpdfOutput cells).data.length := rfl
  rw [h2, h]
  simp

/-- Claim C3 fails on the code: the title cell of `create_pdf_from_text`
is emitted outside the per-line exception handler, so a title outside the
output encoding makes the whole function raise instead of substituting
the placeholder — here with the latin-1 renderability model and a CJK
title. -/
theorem c3_counterexample_unrenderable_title :
    create_pdf_from_text latin1Renderable "hello" "名" = .error () := rfl

/-- Claim C3 amended: whenever the title (and the fixed placeholder) is
renderable in the output encoding, `create_pdf_from_text` returns a
non-empty byte buffer for every input string, never raising for content
reasons of the body text: each non-empty body line whose rendering fails
is replaced by the placeholder line. -/
theorem c3_body_rendering_total (canRender : String → Bool) (text title : String)
    (ht : canRender title = true) (hp : canRender placeholderLine = true) :
    create_pdf_from_text canRender text title =
      .ok (fpdfOutput (title ::
        ((pySplitNl text).filter (fun l => 0 < l.length)).map
          (fun l => if canRender l then l else placeholderLine))) ∧
    ∀ buf, create_pdf_from_text canRender text title = .ok buf → 0 < buf.length := by
  have h := addLines_eq canRender hp (pySplitNl text)
  have hmain : create_pdf_from_text canRender text title =
      .ok (fpdfOutput (title ::
        ((pySplitNl text).filter (fun l => 0 < l.length)).map
          (fun l => if canRender l then l else placeholderLine))) := by
    simp [create_pdf_from_text, ht, h]
  refine ⟨hmain, ?_⟩
  intro buf hbuf
  rw [hmain] at hbuf
  injection hbuf with hbuf
  rw [← hbuf]
  exact fpdfOutput_length_pos _

/-- Concrete instantiation of the amended C3 theorem on a mixed
ASCII/non-Latin body: the ASCII line is kept, the CJK line is replaced by
the placeholder, and a buffer is returned. -/
theorem c3_total_witness :
    latin1Renderable "Extracted Text" = true ∧
    latin1Renderable placeholderLine = true ∧
    create_pdf_from_text latin1Renderable "hello\n日本語" "Extracted Text" =
      .ok (fpdfOutput ["Extracted Text", "hello", placeholderLine]) := by
  refine ⟨by decide, by decide, ?_⟩
  have h := (c3_body_rendering_total latin1Renderable "hello\n日本語" "Extracted Text"
    (by decide) (by decide)).1
  rw [h]
  rfl

theorem pipeline_trigger_false (env : Env)
    (h : (decide ((pyStrip (nativePhase env.forceOCR env.native)).length < 100)
        || env.forceOCR) = false) :
    pipeline env =
      finishRun (nativePhase env.forceOCR env.native) false none false false 0 []
        env.unlinkOk := by
  simp [pipeline, h]

theorem pipeline_hard_stop (env : Env)
    (h : (decide ((pyStrip (nativePhase env.forceOCR env.native)).length < 100)
        || env.forceOCR) = true)
    (hp : (is_poppler_installed env.probe).1 = false) :
    pipeline env =
      finishRun (nativePhase env.forceOCR env.native) true (some false) true false 0 []
        env.unlinkOk := by
  simp [pipeline, h, hp]

theorem pipeline_convert_error (env : Env)
    (h : (decide ((pyStrip (nativePhase env.forceOCR env.native)).length < 100)
        || env.forceOCR) = true)
    (hp : (is_poppler_installed env.probe).1 = true)
    (hc : env.convert = .error ()) :
    pipeline env = finishRun "" true (some true) false true 0 [] env.unlinkOk := by
  simp [pipeline, h, hp, hc]

theorem pipeline_ocr (env : Env) (n : Nat)
    (h : (decide ((pyStrip (nativePhase env.forceOCR env.native)).length < 100)
        || env.forceOCR) = true)
    (hp : (is_poppler_installed env.probe).1 = true)
    (hc : env.convert = .ok n) :
    pipeline env =
      finishRun (ocrRun env.ocr n).1 true (some true) false true n (ocrRun env.ocr n).2
        env.unlinkOk := by
  simp [pipeline, h, hp, hc]

/-- Claim C1 fails on the code: with a one-page native extraction
yielding "hello" (stripped accumulator of 20 characters, at or below the
threshold) and a failing rasterization preflight, the partial native text
is not reset — the hard-stop message is shown, no OCR call is made, yet
the final presented text is the nonempty partial native extraction. -/
theorem c1_counterexample_partial_text_presented :
    (pyStrip (nativePhase c1env.forceOCR c1env.native)).length ≤ 100 ∧
    (pipeline c1env).hardStopShown = true ∧
    (pipeline c1env).ocrCalls = 0 ∧
    (pipeline c1env).finalText ≠ "" ∧
    (pipeline c1env).presentedText = some "\n--- Page 1 ---\nhello" := by
  refine ⟨by decide, rfl, rfl, by decide, rfl⟩

/-- Claim C1 amended: the below-threshold native output is discarded
(reset to empty) only when the OCR branch actually proceeds (preflight
passed); when the fallback is required but the preflight fails, no OCR
call is made and the hard-stop message is shown, but the partial native
text is retained and is presented whenever its stripped form is
nonempty. -/
theorem c1_discard_only_when_ocr_proceeds (env : Env) :
    ((pipeline env).ocrBranchEntered = true →
      (pipeline env).finalText = ocrBranchText env) ∧
    ((pipeline env).hardStopShown = true →
      (pipeline env).ocrCalls = 0 ∧ (pipeline env).ocrBranchEntered = false ∧
      (pipeline env).finalText = nativePhase env.forceOCR env.native ∧
      (pipeline env).presentedText =
        (if pyStrip (nativePhase env.forceOCR env.native) ≠ ""
         then some (nativePhase env.forceOCR env.native) else none)) := by
  by_cases h : (decide ((pyStrip (nativePhase env.forceOCR env.native)).length < 100)
      || env.forceOCR) = true
  · by_cases hp : (is_poppler_installed env.probe).1 = true
    · cases hc : env.convert with
      | error e =>
          cases e
          rw [pipeline_convert_error env h hp hc]
          simp [finishRun, ocrBranchText, hc]
      | ok n =>
          rw [pipeline_ocr env n h hp hc]
          simp [finishRun, ocrBranchText, hc]
    · rw [pipeline_hard_stop env h (by simpa using hp)]
      simp [finishRun]
  · rw [pipeline_trigger_false env (by simpa using h)]
    simp [finishRun]

/-- Concrete instantiation of the amended C1 theorem on the hard-stop
path. -/
theorem c1_hard_stop_witness :
    (pipeline c1env).hardStopShown = true ∧
    ((pipeline c1env).ocrCalls = 0 ∧ (pipeline c1env).ocrBranchEntered = false ∧
      (pipeline c1env).finalText = nativePhase c1env.forceOCR c1env.native ∧
      (pipeline c1env).presentedText =
        (if pyStrip (nativePhase c1env.forceOCR c1env.native) ≠ ""
         then some (nativePhase c1env.forceOCR c1env.native) else none)) :=
  ⟨rfl, (c1_discard_only_when_ocr_proceeds c1env).2 rfl⟩

/-- Claim C2 fails on the code at the threshold boundary: an upload whose
stripped native accumulator has length exactly 100 is "at most 100"
characters, force-OCR is off, yet the fallback never triggers
(`< 100` is false), so the rasterization preflight is not attempted. -/
theorem c2_counterexample_threshold_boundary :
    c2env.forceOCR = false ∧
    (pyStrip (nativeResultText c2env.native)).length = 100 ∧
    (pipeline c2env).preflightAttempted = false ∧
    (pipeline c2env).ocrBranchEntered = false ∧
    (pipeline c2env).ocrCalls = 0 := by
  refine ⟨rfl, by decide, rfl, rfl, rfl⟩

/-- Claim C2 amended: the fallback preflight is attempted exactly when
force-OCR is set or the stripped native accumulator has strictly fewer
than 100 characters; above 100 characters (force-OCR off) OCR never runs;
below 100 characters or when native extraction raises (force-OCR off) the
preflight is attempted, and OCR calls happen only after it passes. -/
theorem c2_fallback_trigger_characterization (env : Env) :
    ((pipeline env).preflightAttempted =
      (decide ((pyStrip (nativePhase env.forceOCR env.native)).length < 100)
        || env.forceOCR)) ∧
    (env.forceOCR = false →
      (100 < (pyStrip (nativePhase env.forceOCR env.native)).length →
        (pipeline env).preflightAttempted = false ∧
        (pipeline env).ocrBranchEntered = false ∧ (pipeline env).ocrCalls = 0) ∧
      ((pyStrip (nativePhase env.forceOCR env.native)).length < 100 →
        (pipeline env).preflightAttempted = true ∧
        ((pipeline env).ocrCalls ≠ 0 → (pipeline env).preflightResult = some true))) := by
  by_cases h : (decide ((pyStrip (nativePhase env.forceOCR env.native)).length < 100)
      || env.forceOCR) = true
  · by_cases hp : (is_poppler_installed env.probe).1 = true
    · cases hc : env.convert with
      | error e =>
          cases e
          rw [pipeline_convert_error env h hp hc]
          refine ⟨by simp [finishRun, h], ?_⟩
          intro hf
          rw [hf] at h ⊢
          simp at h
          exact ⟨fun hlen => by omega, fun _ => by simp [finishRun]⟩
      | ok n =>
          rw [pipeline_ocr env n h hp hc]
          refine ⟨by simp [finishRun, h], ?_⟩
          intro hf
          rw [hf] at h ⊢
          simp at h
          exact ⟨fun hlen => by omega, fun _ => by simp [finishRun]⟩
    · rw [pipeline_hard_stop env h (by simpa using hp)]
      refine ⟨by simp [finishRun, h], ?_⟩
      intro hf
      rw [hf] at h ⊢
      simp at h
      exact ⟨fun hlen => by omega, fun _ => by simp [finishRun]⟩
  · have hb : (decide ((pyStrip (nativePhase env.forceOCR env.native)).length < 100)
        || env.forceOCR) = false := by simpa using h
    rw [pipeline_trigger_false env hb]
    have h2 := hb
    simp only [Bool.or_eq_false_iff, decide_eq_false_iff_not] at h2
    refine ⟨by simp [finishRun, hb], ?_⟩
    intro hf
    exact ⟨fun _ => by simp [finishRun], fun hlen => absurd hlen h2.1⟩

set_option maxRecDepth 20000 in
/-- Concrete instantiation of the amended C2 theorem: an amply sufficient
native text layer (201-character stripped accumulator) with force-OCR off
never attempts preflight or OCR. -/
theorem c2_sufficient_native_witness :
    c2okenv.forceOCR = false ∧
    100 < (pyStrip (nativePhase c2okenv.forceOCR c2okenv.native)).length ∧
    ((pipeline c2okenv).preflightAttempted = false ∧
      (pipeline c2okenv).ocrBranchEntered = false ∧ (pipeline c2okenv).ocrCalls = 0) :=
  ⟨rfl, by decide, ((c2_fallback_trigger_characterization c2okenv).2 rfl).1 (by decide)⟩

/-- Claim C4: at most one extraction strategy's output is authoritative
per run: a sufficient native accumulator (force-OCR off) means the OCR
branch never runs and the native text is final; whenever the OCR branch
runs (including under force-OCR), the final text is computed from the
empty accumulator and the OCR oracle alone — partial native text is
discarded, never merged. -/
theorem c4_single_strategy_kept (env : Env) :
    (env.forceOCR = false → 100 < (pyStrip (nativeResultText env.native)).length →
      (pipeline env).ocrBranchEntered = false ∧ (pipeline env).ocrCalls = 0 ∧
      (pipeline env).finalText = nativeResultText env.native) ∧
    ((pipeline env).ocrBranchEntered = true →
      (pipeline env).finalText = ocrBranchText env) := by
  by_cases h : (decide ((pyStrip (nativePhase env.forceOCR env.native)).length < 100)
      || env.forceOCR) = true
  · by_cases hp : (is_poppler_installed env.probe).1 = true
    · cases hc : env.convert with
      | error e =>
          cases e
          rw [pipeline_convert_error env h hp hc]
          refine ⟨?_, by simp [finishRun, ocrBranchText, hc]⟩
          intro hf hlen
          rw [hf] at h
          simp [nativePhase] at h
          omega
      | ok n =>
          rw [pipeline_ocr env n h hp hc]
          refine ⟨?_, by simp [finishRun, ocrBranchText, hc]⟩
          intro hf hlen
          rw [hf] at h
          simp [nativePhase] at h
          omega
    · rw [pipeline_hard_stop env h (by simpa using hp)]
      refine ⟨?_, by simp [finishRun]⟩
      intro hf hlen
      rw [hf] at h
      simp [nativePhase] at h
      omega
  · rw [pipeline_trigger_false env (by simpa using h)]
    have h2 := h
    simp only [Bool.or_eq_true, decide_eq_true_eq, not_or] at h2
    refine ⟨?_, by simp [finishRun]⟩
    intro hf _
    simp [finishRun, nativePhase, hf]

set_option maxRecDepth 20000 in
/-- Concrete instantiations of the C4 theorem: force-OCR on a document
with a perfectly extractable text layer routes through OCR and discards
the native text; a sufficient native layer keeps OCR out. -/
theorem c4_exclusivity_witness :
    ((pipeline c4env).ocrBranchEntered = true ∧
      (pipeline c4env).finalText = ocrBranchText c4env) ∧
    (c2okenv.forceOCR = false ∧
      100 < (pyStrip (nativeResultText c2okenv.native)).length ∧
      ((pipeline c2okenv).ocrBranchEntered = false ∧ (pipeline c2okenv).ocrCalls = 0 ∧
        (pipeline c2okenv).finalText = nativeResultText c2okenv.native)) :=
  ⟨⟨rfl, (c4_single_strategy_kept c4env).2 rfl⟩,
   ⟨rfl, by decide, (c4_single_strategy_kept c2okenv).1 rfl (by decide)⟩⟩

/-- Claim C8: the transient upload copy's deletion is attempted on every
path through the pipeline — for every oracle environment, including those
where native extraction, rasterization or OCR raise — and a failure of
the deletion itself changes nothing observable: the deletion outcome
tracks the oracle, while the presented result and final text are
identical whatever the deletion outcome. -/
theorem c8_cleanup_every_path (env : Env) (b : Bool) :
    (pipeline env).unlinkAttempted = true ∧
    (pipeline env).unlinkSucceeded = env.unlinkOk ∧
    (pipeline (setUnlink env b)).presentedText = (pipeline env).presentedText ∧
    (pipeline (setUnlink env b)).finalText = (pipeline env).finalText := by
  by_cases h : (decide ((pyStrip (nativePhase env.forceOCR env.native)).length < 100)
      || env.forceOCR) = true
  · by_cases hp : (is_poppler_installed env.probe).1 = true
    · cases hc : env.convert with
      | error e =>
          cases e
          rw [pipeline_convert_error env h hp hc,
            pipeline_convert_error (setUnlink env b) (by simpa [setUnlink, nativePhase] using h)
              (by simpa [setUnlink] using hp) (by simpa [setUnlink] using hc)]
          simp [finishRun]
      | ok n =>
          rw [pipeline_ocr env n h hp hc,
            pipeline_ocr (setUnlink env b) n (by simpa [setUnlink, nativePhase] using h)
              (by simpa [setUnlink] using hp) (by simpa [setUnlink] using hc)]
          simp [finishRun, setUnlink]
    · rw [pipeline_hard_stop env h (by simpa using hp),
        pipeline_hard_stop (setUnlink env b) (by simpa [setUnlink, nativePhase] using h)
          (by simpa [setUnlink] using hp)]
      simp [finishRun, setUnlink]
  · rw [pipeline_trigger_false env (by simpa using h),
      pipeline_trigger_false (setUnlink env b)
        (by simpa [setUnlink, nativePhase] using h)]
    simp [finishRun, setUnlink]
